import Mathlib

/-!
Verification of the `utztime` TZTime value type (src/src/utztime/tztime.py).

The embedding follows the source file closely:

* `Timezone` models the external timezone capability (`utimezone.Timezone`)
  as an opaque record of functions, exactly as the spec treats it.
* `mktimeSpec` / `localtimeSpec` model the platform calendar primitives
  (`time.mktime` / `time.localtime`), whose normalization contract the spec
  fixes in its external-interfaces section: out-of-range fields roll
  forward/backward, and the conversion is the standard proleptic-Gregorian
  civil calendar arithmetic.  They are parametric in the platform epoch
  year `E` (1970 on unix, 2000 on micropython).
* `_mktime`, `TZTime` and all its methods are translated from the source.
-/

namespace Utztime

/-- Days from 1970-01-01 to the civil date y-m-d (proleptic Gregorian),
for an already-normalized month 1..12.  Standard civil-calendar arithmetic. -/
def daysFromCivil (y m d : Int) : Int :=
  let y' := if m ≤ 2 then y - 1 else y
  let era := y'.fdiv 400
  let yoe := y' - era * 400
  let mp := (m + 9).emod 12
  let doy := (153 * mp + 2).fdiv 5 + d - 1
  let doe := yoe * 365 + yoe.fdiv 4 - yoe.fdiv 100 + doy
  era * 146097 + doe - 719468

/-- Civil date (year, month, day) from days since 1970-01-01. -/
def civilFromDays (z0 : Int) : Int × Int × Int :=
  let z := z0 + 719468
  let era := z.fdiv 146097
  let doe := z - era * 146097
  let yoe := (doe - doe.fdiv 1460 + doe.fdiv 36524 - doe.fdiv 146096).fdiv 365
  let y := yoe + era * 400
  let doy := doe - (365 * yoe + yoe.fdiv 4 - yoe.fdiv 100)
  let mp := (5 * doy + 2).fdiv 153
  let d := doy - (153 * mp + 2).fdiv 5 + 1
  let m := if mp < 10 then mp + 3 else mp - 9
  (if m ≤ 2 then y + 1 else y, m, d)

/-- The decomposed calendar tuple returned by the epoch-to-calendar
primitive: (year, month 1-12, day 1-31, hour, minute, second,
day-of-week with Monday = 0). -/
structure StructTime where
  year : Int
  month : Int
  day : Int
  hour : Int
  minute : Int
  second : Int
  dow : Int
  deriving DecidableEq, Repr

/-- Modelled from the spec: the platform calendar-to-epoch primitive
(`time.mktime`, not part of this repository).  Per the spec's
external-interfaces contract it accepts (year, month, day, hour, minute,
second) and normalizes out-of-range fields forward/backward: the month is
folded into the year, and day/hour/minute/second act as linear offsets.
`E` is the platform epoch year; the result counts seconds since Jan 1 `E`. -/
def mktimeSpec (E y m d h mi s : Int) : Int :=
  let tm := y * 12 + (m - 1)
  let ny := tm.fdiv 12
  let nm := tm.emod 12 + 1
  (daysFromCivil ny nm 1 - daysFromCivil E 1 1 + (d - 1)) * 86400
    + h * 3600 + mi * 60 + s

/-- Modelled from the spec: the platform epoch-to-calendar primitive
(`time.localtime`, not part of this repository), decomposing seconds since
Jan 1 of epoch year `E` into calendar fields. -/
def localtimeSpec (E t : Int) : StructTime :=
  let days := t.fdiv 86400 + daysFromCivil E 1 1
  let secs := t.emod 86400
  let c := civilFromDays days
  { year := c.1, month := c.2.1, day := c.2.2
    hour := secs.fdiv 3600
    minute := (secs.emod 3600).fdiv 60
    second := secs.emod 60
    dow := (days + 3).emod 7 }

/-- The module-level `_mktime` wrapper from the source: clamps the year up
to the platform epoch year `E`, and clamps a negative result up to 0. -/
def _mktime (E y m d h mi s : Int) : Int :=
  max 0 (mktimeSpec E (max y E) m d h mi s)

/-- The external timezone capability (`utimezone.Timezone`), as the opaque
interface the spec describes: local-DST query, local/UTC conversions, and
the standard/daylight offsets in minutes (`_std.offset` / `_dst.offset`). -/
structure Timezone where
  toUTC : Int → Int
  toLocal : Int → Int
  locIsDST : Int → Bool
  stdOffset : Int
  dstOffset : Int

/-- The error taxonomy of the spec: `UnsupportedYearError` for `create`
with a below-floor year, `InvalidArgumentError` for a non-integral raw
constructor argument.  (In the source both are `assert` failures.) -/
inductive TZError where
  | unsupportedYearError
  | invalidArgumentError
  deriving DecidableEq, Repr

/-- The TZTime value: an epoch-seconds integer plus an optional Timezone.
The lazily-memoized `_stime` cache is omitted: it is write-once state that
is observationally equal to recomputing `localtimeSpec` on demand. -/
structure TZTime where
  time : Int
  tz : Option Timezone

/-- `TZTime.__init__`: the raw constructor.  A Python caller may pass any
value for `t`; a non-`None` value that is not an `int` (modelled by the
right summand, drawn from an arbitrary type `α`) trips the
`isinstance(t, int)` assert.  `now` stands for the `time.time()` reading
used when `t` is `None`. -/
def TZTime.init {α : Type} (now : Int) (t : Option (Int ⊕ α))
    (tz : Option Timezone) : Except TZError TZTime :=
  match t with
  | none => .ok ⟨now, tz⟩
  | some (.inl n) => .ok ⟨n, tz⟩
  | some (.inr _) => .error .invalidArgumentError

/-- `TZTime.create`: asserts `year >= _EPOCH_YEAR`, then wraps the
`_mktime`-normalized seconds with the given timezone. -/
def TZTime.create (E y m d h mi s : Int) (tz : Option Timezone) :
    Except TZError TZTime :=
  if y ≥ E then .ok ⟨_mktime E y m d h mi s, tz⟩
  else .error .unsupportedYearError

/-- `TZTime.isDST`. -/
def TZTime.isDST (x : TZTime) : Bool :=
  match x.tz with
  | none => false
  | some tz => tz.locIsDST x.time

/-- `TZTime.isSTD`. -/
def TZTime.isSTD (x : TZTime) : Bool :=
  !x.isDST

/-- `TZTime.toUTC`: converts through the attached timezone when there is
one, and always returns a timezone-free instant. -/
def TZTime.toUTC (x : TZTime) : TZTime :=
  match x.tz with
  | some tz => ⟨tz.toUTC x.time, none⟩
  | none => ⟨x.time, none⟩

/-- `TZTime.toTimezone`: normalizes to UTC first, then converts into the
target timezone when one is given. -/
def TZTime.toTimezone (x : TZTime) (tz : Option Timezone) : TZTime :=
  let z := x.toUTC
  match tz with
  | some tz => ⟨tz.toLocal z.time, some tz⟩
  | none => z

/-- `TZTime.__eq__`: the right operand is an arbitrary Python value,
either a TZTime (left summand) or a foreign value of any type `α`. -/
def TZTime.eqOp {α : Type} (x : TZTime) (other : TZTime ⊕ α) : Bool :=
  match other with
  | .inl o => x.toUTC.time == o.toUTC.time
  | .inr _ => false

/-- `TZTime.__ne__`. -/
def TZTime.neOp {α : Type} (x : TZTime) (other : TZTime ⊕ α) : Bool :=
  match other with
  | .inl o => x.toUTC.time != o.toUTC.time
  | .inr _ => false

/-- `TZTime.__gt__`. -/
def TZTime.gtOp {α : Type} (x : TZTime) (other : TZTime ⊕ α) : Bool :=
  match other with
  | .inl o => x.toUTC.time > o.toUTC.time
  | .inr _ => false

/-- `TZTime.__lt__`. -/
def TZTime.ltOp {α : Type} (x : TZTime) (other : TZTime ⊕ α) : Bool :=
  match other with
  | .inl o => x.toUTC.time < o.toUTC.time
  | .inr _ => false

/-- `TZTime.__ge__`. -/
def TZTime.geOp {α : Type} (x : TZTime) (other : TZTime ⊕ α) : Bool :=
  match other with
  | .inl o => x.toUTC.time ≥ o.toUTC.time
  | .inr _ => false

/-- `TZTime.__le__`. -/
def TZTime.leOp {α : Type} (x : TZTime) (other : TZTime ⊕ α) : Bool :=
  match other with
  | .inl o => x.toUTC.time ≤ o.toUTC.time
  | .inr _ => false

/-- `TZTime._gmtime`: the decomposed calendar tuple of the stored seconds. -/
def TZTime.gmtime (E : Int) (x : TZTime) : StructTime :=
  localtimeSpec E x.time

/-- `TZTime.secondsBetween`. -/
def TZTime.secondsBetween (x other : TZTime) : Int :=
  other.toUTC.time - x.toUTC.time

/-- `TZTime.plusYears`. -/
def TZTime.plusYears (E : Int) (x : TZTime) (years : Int) : TZTime :=
  let gm := x.gmtime E
  ⟨_mktime E (gm.year + years) gm.month gm.day gm.hour gm.minute gm.second, x.tz⟩

/-- `TZTime.plusMonths`. -/
def TZTime.plusMonths (E : Int) (x : TZTime) (months : Int) : TZTime :=
  let gm := x.gmtime E
  ⟨_mktime E gm.year (gm.month + months) gm.day gm.hour gm.minute gm.second, x.tz⟩

/-- `TZTime.plusDays`. -/
def TZTime.plusDays (E : Int) (x : TZTime) (days : Int) : TZTime :=
  let gm := x.gmtime E
  ⟨_mktime E gm.year gm.month (gm.day + days) gm.hour gm.minute gm.second, x.tz⟩

/-- `TZTime.plusHours`. -/
def TZTime.plusHours (E : Int) (x : TZTime) (hours : Int) : TZTime :=
  let gm := x.gmtime E
  ⟨_mktime E gm.year gm.month gm.day (gm.hour + hours) gm.minute gm.second, x.tz⟩

/-- `TZTime.plusMinutes`. -/
def TZTime.plusMinutes (E : Int) (x : TZTime) (minutes : Int) : TZTime :=
  let gm := x.gmtime E
  ⟨_mktime E gm.year gm.month gm.day gm.hour (gm.minute + minutes) gm.second, x.tz⟩

/-- `TZTime.plusSeconds`. -/
def TZTime.plusSeconds (E : Int) (x : TZTime) (seconds : Int) : TZTime :=
  let gm := x.gmtime E
  ⟨_mktime E gm.year gm.month gm.day gm.hour gm.minute (gm.second + seconds), x.tz⟩

/-- `TZTime.withYear`. -/
def TZTime.withYear (E : Int) (x : TZTime) (year : Int) : TZTime :=
  let gm := x.gmtime E
  ⟨_mktime E year gm.month gm.day gm.hour gm.minute gm.second, x.tz⟩

/-- `TZTime.withMonth`. -/
def TZTime.withMonth (E : Int) (x : TZTime) (month : Int) : TZTime :=
  let gm := x.gmtime E
  ⟨_mktime E gm.year month gm.day gm.hour gm.minute gm.second, x.tz⟩

/-- `TZTime.withDay`. -/
def TZTime.withDay (E : Int) (x : TZTime) (day : Int) : TZTime :=
  let gm := x.gmtime E
  ⟨_mktime E gm.year gm.month day gm.hour gm.minute gm.second, x.tz⟩

/-- `TZTime.withHour`. -/
def TZTime.withHour (E : Int) (x : TZTime) (hour : Int) : TZTime :=
  let gm := x.gmtime E
  ⟨_mktime E gm.year gm.month gm.day hour gm.minute gm.second, x.tz⟩

/-- `TZTime.withMinute`. -/
def TZTime.withMinute (E : Int) (x : TZTime) (minute : Int) : TZTime :=
  let gm := x.gmtime E
  ⟨_mktime E gm.year gm.month gm.day gm.hour minute gm.second, x.tz⟩

/-- `TZTime.withSecond`. -/
def TZTime.withSecond (E : Int) (x : TZTime) (second : Int) : TZTime :=
  let gm := x.gmtime E
  ⟨_mktime E gm.year gm.month gm.day gm.hour gm.minute second, x.tz⟩

/-- `TZTime.withTimezone`. -/
def TZTime.withTimezone (x : TZTime) (tz : Option Timezone) : TZTime :=
  ⟨x.time, tz⟩

/-- Python `"%02d" % n` for the field values rendered here. -/
def pad2 (n : Int) : String :=
  if 0 ≤ n ∧ n < 10 then "0" ++ toString n else toString n

/-- Python `"%04d" % n` for the year value rendered here. -/
def pad4 (n : Int) : String :=
  if 0 ≤ n ∧ n < 10 then "000" ++ toString n
  else if 0 ≤ n ∧ n < 100 then "00" ++ toString n
  else if 0 ≤ n ∧ n < 1000 then "0" ++ toString n
  else toString n

/-- `TZTime.toISO8601`.  `Int.tdiv` models Python's `int(offset / 60)`
(true division then truncation toward zero) and `Int.emod` models
Python's nonnegative `offset % 60`. -/
def TZTime.toISO8601 (E : Int) (x : TZTime) : String :=
  let tzstr :=
    match x.tz with
    | some tz =>
      let offset := if tz.locIsDST x.time then tz.dstOffset else tz.stdOffset
      let offsetHours := offset.tdiv 60
      let offsetMinutes := offset.emod 60
      let offsetDir := if offsetHours > 0 then "+" else "-"
      offsetDir ++ pad2 (offsetHours.natAbs : Int) ++ ":" ++ pad2 offsetMinutes
    | none => "Z"
  let gm := x.gmtime E
  pad4 gm.year ++ "-" ++ pad2 gm.month ++ "-" ++ pad2 gm.day ++ "T"
    ++ pad2 gm.hour ++ ":" ++ pad2 gm.minute ++ ":" ++ pad2 gm.second ++ tzstr

/-- The `YYYY-MM-DDTHH:MM:SS` date-time body the spec says `toISO8601`
renders, written from the spec's wording for comparison with the source. -/
def isoBody (E t : Int) : String :=
  let gm := localtimeSpec E t
  pad4 gm.year ++ "-" ++ pad2 gm.month ++ "-" ++ pad2 gm.day ++ "T"
    ++ pad2 gm.hour ++ ":" ++ pad2 gm.minute ++ ":" ++ pad2 gm.second

/-- The zone-suffix rule as amended: the sign character is `+` exactly when
the truncated hour part `offset / 60` is positive (not when the offset
itself is positive), followed by the absolute hour part and the
nonnegative remainder minutes. -/
def zoneSuffixAmended (offset : Int) : String :=
  (if offset.tdiv 60 > 0 then "+" else "-")
    ++ pad2 ((offset.tdiv 60).natAbs : Int) ++ ":" ++ pad2 (offset.emod 60)

/-- A concrete timezone whose applicable offset is +30 minutes and which is
never in DST; used to exhibit the `toISO8601` sign behavior. -/
def tz30 : Timezone :=
  { toUTC := fun t => t - 1800
    toLocal := fun t => t + 1800
    locIsDST := fun _ => false
    stdOffset := 30
    dstOffset := 90 }

/-- Helper: folding twelve extra months into the month field is the same
as folding one extra year into the year field, for the calendar-to-epoch
primitive. -/
theorem mktimeSpec_month_roll (E y m d h mi s : Int) :
    mktimeSpec E y (m + 12) d h mi s = mktimeSpec E (y + 1) m d h mi s := by
  unfold mktimeSpec
  have h12 : y * 12 + (m + 12 - 1) = (y + 1) * 12 + (m - 1) := by ring
  simp only [h12]

/-- C1: for every Instant `x` and Timezone `tz` whose `toUTC` and `toLocal`
are exact inverses, `x.toTimezone(tz).toUTC()` has the same epochSeconds
as `x.toUTC()`. -/
theorem toTimezone_toUTC_roundtrip (x : TZTime) (tz : Timezone)
    (hinv : ∀ t, tz.toUTC (tz.toLocal t) = t) :
    ((x.toTimezone (some tz)).toUTC).time = x.toUTC.time := by
  cases x with
  | mk t xtz => cases xtz <;> simp [TZTime.toTimezone, TZTime.toUTC, hinv]

/-- Witness for C1 at a concrete instant and a concrete +1h timezone. -/
theorem toTimezone_toUTC_roundtrip_witness :
    ((TZTime.mk 1000 none).toTimezone
        (some ⟨fun t => t - 3600, fun t => t + 3600, fun _ => false, 60, 60⟩)).toUTC.time
      = (TZTime.mk 1000 none).toUTC.time :=
  toTimezone_toUTC_roundtrip (TZTime.mk 1000 none)
    ⟨fun t => t - 3600, fun t => t + 3600, fun _ => false, 60, 60⟩
    (fun t => by show t + 3600 - 3600 = t; omega)

/-- C2: for TZTime operands, `==` holds exactly when the UTC-normalized
epochSeconds coincide, whatever timezones are attached to the operands. -/
theorem eqOp_iff_utc_time (α : Type) (a b : TZTime) :
    a.eqOp (Sum.inl b : TZTime ⊕ α) = true ↔ a.toUTC.time = b.toUTC.time := by
  simp [TZTime.eqOp]

/-- C3: every one of the six comparison operators returns `false` on a
foreign (non-TZTime) right operand; in the embedding the operators are
total functions, mirroring the source's raise-free early return. -/
theorem foreign_compare_all_false (α : Type) (x : TZTime) (v : α) :
    x.eqOp (Sum.inr v : TZTime ⊕ α) = false
      ∧ x.neOp (Sum.inr v : TZTime ⊕ α) = false
      ∧ x.gtOp (Sum.inr v : TZTime ⊕ α) = false
      ∧ x.ltOp (Sum.inr v : TZTime ⊕ α) = false
      ∧ x.geOp (Sum.inr v : TZTime ⊕ α) = false
      ∧ x.leOp (Sum.inr v : TZTime ⊕ α) = false :=
  ⟨rfl, rfl, rfl, rfl, rfl, rfl⟩

/-- C4: `create` fails with `UnsupportedYearError` exactly when the year is
below the platform epoch floor `E`; at or above the floor it returns the
instant wrapping the `_mktime`-normalized seconds. -/
theorem create_year_floor (E y m d h mi s : Int) (tz : Option Timezone) :
    (y < E → TZTime.create E y m d h mi s tz = .error .unsupportedYearError)
      ∧ (E ≤ y → TZTime.create E y m d h mi s tz = .ok ⟨_mktime E y m d h mi s, tz⟩) := by
  unfold TZTime.create
  constructor
  · intro hy
    rw [if_neg (by omega)]
  · intro hy
    rw [if_pos (by omega)]

/-- Witness for C4: with a 1970 floor, year 1969 fails and year 2000
succeeds. -/
theorem create_year_floor_witness :
    TZTime.create 1970 1969 1 1 0 0 0 none = .error .unsupportedYearError
      ∧ TZTime.create 1970 2000 1 1 0 0 0 none
          = .ok ⟨_mktime 1970 2000 1 1 0 0 0, none⟩ :=
  ⟨(create_year_floor 1970 1969 1 1 0 0 0 none).1 (by norm_num),
   (create_year_floor 1970 2000 1 1 0 0 0 none).2 (by norm_num)⟩

/-- C5 counterexample: with an applicable offset of +30 minutes (positive
and smaller than 60), the source renders the suffix `-00:30`, not the
`+00:30` the claim's sign rule predicts. -/
theorem toISO8601_sign_counterexample :
    TZTime.toISO8601 1970 ⟨0, some tz30⟩ = "1970-01-01T00:00:00-00:30"
      ∧ TZTime.toISO8601 1970 ⟨0, some tz30⟩ ≠ "1970-01-01T00:00:00+00:30" := by
  constructor
  · rfl
  · decide

/-- C5 as amended: `toISO8601` renders the `YYYY-MM-DDTHH:MM:SS` body
followed by `Z` when no timezone is attached, and otherwise by a suffix
whose sign character is `+` exactly when the truncated hour part of the
applicable offset is positive (so any offset in [0, 59] renders with
`-`), followed by the absolute hour part and remainder minutes. -/
theorem toISO8601_format (E : Int) (x : TZTime) :
    x.toISO8601 E = isoBody E x.time
      ++ (match x.tz with
          | none => "Z"
          | some tz =>
            zoneSuffixAmended
              (if tz.locIsDST x.time then tz.dstOffset else tz.stdOffset)) := by
  cases x with
  | mk t xtz => cases xtz <;> rfl

/-- C6: every plus*/with* operation hands the receiver's timezone through
to the result unchanged (the receiver itself is immutable by
construction: each source method only reads `self` and builds a fresh
instance). -/
theorem ops_preserve_timezone (E : Int) (x : TZTime) (n : Int) :
    (x.plusYears E n).tz = x.tz
      ∧ (x.plusMonths E n).tz = x.tz
      ∧ (x.plusDays E n).tz = x.tz
      ∧ (x.plusHours E n).tz = x.tz
      ∧ (x.plusMinutes E n).tz = x.tz
      ∧ (x.plusSeconds E n).tz = x.tz
      ∧ (x.withYear E n).tz = x.tz
      ∧ (x.withMonth E n).tz = x.tz
      ∧ (x.withDay E n).tz = x.tz
      ∧ (x.withHour E n).tz = x.tz
      ∧ (x.withMinute E n).tz = x.tz
      ∧ (x.withSecond E n).tz = x.tz :=
  ⟨rfl, rfl, rfl, rfl, rfl, rfl, rfl, rfl, rfl, rfl, rfl, rfl⟩

/-- C7: the plus*/with* family is total (no raise path in the embedding)
and every result has nonnegative epochSeconds; `_mktime` clamps the year
up to the floor `E` and the result up to 0, and the calendar-to-epoch
primitive absorbs out-of-range fields by rolling them (twelve months into
a year, 24 hours into a day, 60 minutes into an hour, 60 seconds into a
minute). -/
theorem ops_total_and_clamped (E y m d h mi s n : Int) (x : TZTime) :
    0 ≤ (x.plusYears E n).time
      ∧ 0 ≤ (x.plusMonths E n).time
      ∧ 0 ≤ (x.plusDays E n).time
      ∧ 0 ≤ (x.plusHours E n).time
      ∧ 0 ≤ (x.plusMinutes E n).time
      ∧ 0 ≤ (x.plusSeconds E n).time
      ∧ 0 ≤ (x.withYear E n).time
      ∧ 0 ≤ (x.withMonth E n).time
      ∧ 0 ≤ (x.withDay E n).time
      ∧ 0 ≤ (x.withHour E n).time
      ∧ 0 ≤ (x.withMinute E n).time
      ∧ 0 ≤ (x.withSecond E n).time
      ∧ _mktime E y m d h mi s = _mktime E (max y E) m d h mi s
      ∧ 0 ≤ _mktime E y m d h mi s
      ∧ mktimeSpec E y (m + 12) d h mi s = mktimeSpec E (y + 1) m d h mi s
      ∧ mktimeSpec E y m d (h + 24) mi s = mktimeSpec E y m (d + 1) h mi s
      ∧ mktimeSpec E y m d h (mi + 60) s = mktimeSpec E y m d (h + 1) mi s
      ∧ mktimeSpec E y m d h mi (s + 60) = mktimeSpec E y m d h (mi + 1) s := by
  refine ⟨le_max_left 0 _, le_max_left 0 _, le_max_left 0 _, le_max_left 0 _,
    le_max_left 0 _, le_max_left 0 _, le_max_left 0 _, le_max_left 0 _,
    le_max_left 0 _, le_max_left 0 _, le_max_left 0 _, le_max_left 0 _,
    ?_, le_max_left 0 _, mktimeSpec_month_roll E y m d h mi s, ?_, ?_, ?_⟩
  · unfold _mktime
    rw [max_assoc, max_self]
  · unfold mktimeSpec
    ring
  · unfold mktimeSpec
    ring
  · unfold mktimeSpec
    ring

/-- C8: `toUTC` is idempotent and always strips the timezone while keeping
the UTC-normalized epochSeconds. -/
theorem toUTC_idempotent (x : TZTime) :
    x.toUTC.toUTC = x.toUTC
      ∧ x.toUTC.tz = none
      ∧ x.toUTC.toUTC.time = x.toUTC.time := by
  cases x with
  | mk t xtz => cases xtz <;> exact ⟨rfl, rfl, rfl⟩

/-- C9: the raw constructor rejects an explicit non-integral `t` with
`InvalidArgumentError` and stores an explicit integral `t` unchanged. -/
theorem init_requires_int (α : Type) (now n : Int) (v : α) (tz : Option Timezone) :
    TZTime.init now (some (Sum.inr v) : Option (Int ⊕ α)) tz
        = .error .invalidArgumentError
      ∧ TZTime.init now (some (Sum.inl n) : Option (Int ⊕ α)) tz = .ok ⟨n, tz⟩ :=
  ⟨rfl, rfl⟩

/-- C10: with the default year 0 (below any positive platform epoch floor
`E`), `create` always fails with `UnsupportedYearError`, whatever the
other field values and timezone are. -/
theorem create_default_year_fails (E m d h mi s : Int) (tz : Option Timezone)
    (hE : 0 < E) :
    TZTime.create E 0 m d h mi s tz = .error .unsupportedYearError := by
  unfold TZTime.create
  rw [if_neg (by omega)]

/-- Witness for C10: the all-defaults call `create()` on a platform with
epoch floor 2000 fails. -/
theorem create_default_year_fails_witness :
    TZTime.create 2000 0 0 0 0 0 0 none = .error .unsupportedYearError :=
  create_default_year_fails 2000 0 0 0 0 0 none (by norm_num)

end Utztime
